import Mathlib

/-!
Shallow embedding of the PandanticAI-news front-end components
(NewsSearcher in `src/chatbot/src/App.js`, `SourcesGenerator.jsx`,
`HelloWorldGenerator.jsx`, and the NewsAggregator component), together with
proofs about their form handling, request dispatch, view-state transitions
and card rendering.
-/

namespace PandanticNews

/-- JSON values as delivered by `response.json()` / axios `response.data`.
`null` also stands for a JavaScript `null` inside arrays; a missing object
key is represented by `Option.none` at the lookup site. -/
inductive Json where
  | null : Json
  | bool (b : Bool) : Json
  | num (n : Int) : Json
  | str (s : String) : Json
  | arr (elems : List Json) : Json
  | obj (fields : List (String × Json)) : Json

/-- First binding of a key in a JSON object's field list. -/
def lookupField : List (String × Json) → String → Option Json
  | [], _ => none
  | (k, v) :: fs, key => if k = key then some v else lookupField fs key

/-- Property access `data.key`: `none` models JavaScript `undefined`
(property access on a non-object JSON value also yields `undefined`). -/
def Json.get? : Json → String → Option Json
  | .obj fs, key => lookupField fs key
  | _, _ => none

/-- JavaScript truthiness of a JSON value. -/
def Json.jsTruthy : Json → Bool
  | .null => false
  | .bool b => b
  | .num n => n != 0
  | .str s => s != ""
  | .arr _ => true
  | .obj _ => true

mutual

/-- JavaScript `String(v)` of a JSON value. -/
def Json.jsToString : Json → String
  | .null => "null"
  | .bool b => cond b "true" "false"
  | .num n => toString n
  | .str s => s
  | .arr xs => jsArrayJoin xs
  | .obj _ => "[object Object]"

/-- `Array.prototype.toString`: elements joined with commas, null slots empty. -/
def jsArrayJoin : List Json → String
  | [] => ""
  | [Json.null] => ""
  | [x] => Json.jsToString x
  | Json.null :: xs => "," ++ jsArrayJoin xs
  | x :: xs => Json.jsToString x ++ "," ++ jsArrayJoin xs

end

/-- An element as `Array.prototype.join` renders it: null slots become empty. -/
def jsJoinElem : Json → String
  | Json.null => ""
  | j => j.jsToString

/-- `Array.prototype.join(sep)`. -/
def jsJoinWith (sep : String) : List Json → String
  | [] => ""
  | [x] => jsJoinElem x
  | x :: xs => jsJoinElem x ++ sep ++ jsJoinWith sep xs

/-- JavaScript `s || fallback` for a string `s`. -/
def jsOr (s fallback : String) : String := if s = "" then fallback else s

/-- Characters `String.prototype.trim` removes: ECMAScript WhiteSpace and
LineTerminator code points (the rarer Unicode space separators are not
modelled; no claim touches them). -/
def jsWhitespaceChar (c : Char) : Bool :=
  c.toNat = 9 || c.toNat = 10 || c.toNat = 11 || c.toNat = 12 || c.toNat = 13 ||
  c.toNat = 32 || c.toNat = 160 || c.toNat = 8232 || c.toNat = 8233 || c.toNat = 65279

/-- JavaScript `String.prototype.trim`. -/
def jsTrim (s : String) : String :=
  String.mk ((s.data.dropWhile jsWhitespaceChar).reverse.dropWhile jsWhitespaceChar).reverse

/-- JavaScript `v || fallback` where `v` is a possibly-absent JSON value and
the result is consumed as a string (`new Error(x)` coerces its argument). -/
def jsOrString (v : Option Json) (fallback : String) : String :=
  match v with
  | some j => if j.jsTruthy then j.jsToString else fallback
  | none => fallback

mutual

/-- What React renders for a JSON value in text position: `none` is a render
crash (plain objects are not valid React children); booleans and null render
as nothing. -/
def reactNodeText : Json → Option String
  | Json.null => some ""
  | Json.bool _ => some ""
  | Json.num n => some (toString n)
  | Json.str s => some s
  | Json.arr xs => reactNodeTextList xs
  | Json.obj _ => none

/-- React renders an array child as the concatenation of its children. -/
def reactNodeTextList : List Json → Option String
  | [] => some ""
  | x :: xs =>
    match reactNodeText x, reactNodeTextList xs with
    | some a, some b => some (a ++ b)
    | _, _ => none

end

/-- Text rendering of a possibly-absent field: undefined renders as nothing. -/
def reactText : Option Json → Option String
  | none => some ""
  | some j => reactNodeText j

/-- Rendering of the JSX pattern `field || fallback-text`. -/
def jsOrText (v : Option Json) (fallback : String) : Option String :=
  match v with
  | some j => if j.jsTruthy then reactNodeText j else some fallback
  | none => some fallback

/-- React attribute stringification (`src`, `href`, ...): the attribute is
omitted for undefined or null values. -/
def jsAttr : Option Json → Option String
  | none => none
  | some Json.null => none
  | some j => some j.jsToString

/-- UTF-16 length, as JavaScript `String.prototype.length` counts it. -/
def utf16Len (s : String) : Nat :=
  s.data.foldl (fun acc c => acc + (if c.toNat ≥ 0x10000 then 2 else 1)) 0

def utf16TakeAux : Nat → List Char → List Char
  | _, [] => []
  | n, c :: cs =>
    let w := if c.toNat ≥ 0x10000 then 2 else 1
    if w ≤ n then c :: utf16TakeAux (n - w) cs else []

/-- `String.prototype.substring(0, n)` (a split surrogate pair is dropped). -/
def utf16Take (n : Nat) (s : String) : String := String.mk (utf16TakeAux n s.data)

def hexDigitUpper (n : Nat) : Char := if n < 10 then Char.ofNat (48 + n) else Char.ofNat (55 + n)

def hexDigitLower (n : Nat) : Char := if n < 10 then Char.ofNat (48 + n) else Char.ofNat (87 + n)

/-- Escaping of one character inside a `JSON.stringify` string literal. -/
def jsonEscapeChar (c : Char) : String :=
  if c = Char.ofNat 34 then "\\\""
  else if c = Char.ofNat 92 then "\\\\"
  else if c = Char.ofNat 10 then "\\n"
  else if c = Char.ofNat 13 then "\\r"
  else if c = Char.ofNat 9 then "\\t"
  else if c = Char.ofNat 8 then "\\b"
  else if c = Char.ofNat 12 then "\\f"
  else if c.toNat < 32 then
    "\\u00" ++ String.mk [hexDigitLower (c.toNat / 16), hexDigitLower (c.toNat % 16)]
  else String.singleton c

def jsonEscape (s : String) : String := String.join (s.data.map jsonEscapeChar)

mutual

/-- `JSON.stringify` of a JSON value. -/
def Json.stringify : Json → String
  | .null => "null"
  | .bool b => cond b "true" "false"
  | .num n => toString n
  | .str s => "\"" ++ jsonEscape s ++ "\""
  | .arr xs => "[" ++ stringifyList xs ++ "]"
  | .obj fs => "\x7b" ++ stringifyFields fs ++ "\x7d"

def stringifyList : List Json → String
  | [] => ""
  | [x] => Json.stringify x
  | x :: xs => Json.stringify x ++ "," ++ stringifyList xs

def stringifyFields : List (String × Json) → String
  | [] => ""
  | [(k, v)] => "\"" ++ jsonEscape k ++ "\":" ++ Json.stringify v
  | (k, v) :: fs => "\"" ++ jsonEscape k ++ "\":" ++ Json.stringify v ++ "," ++ stringifyFields fs

end

/-- Characters a JavaScript `encodeURIComponent` leaves unescaped. -/
def uriUnreservedChar (c : Char) : Bool :=
  c.isAlphanum || c = Char.ofNat 45 || c = Char.ofNat 95 || c = Char.ofNat 46 ||
  c = Char.ofNat 33 || c = Char.ofNat 126 || c = Char.ofNat 42 || c = Char.ofNat 39 ||
  c = Char.ofNat 40 || c = Char.ofNat 41

def percentEncodeByte (b : Nat) : String :=
  String.mk [Char.ofNat 37, hexDigitUpper (b / 16), hexDigitUpper (b % 16)]

/-- JavaScript `encodeURIComponent`: unreserved characters kept, everything
else percent-encoded per UTF-8 byte. -/
def encodeURIComponent (s : String) : String :=
  String.join (s.data.map (fun c =>
    if uriUnreservedChar c then String.singleton c
    else String.join (((String.singleton c).toUTF8.toList).map (fun b => percentEncodeByte b.toNat))))

/-- One character under `application/x-www-form-urlencoded` serialization,
as `URLSearchParams.toString()` produces it. -/
def formEncodeChar (c : Char) : String :=
  if c.isAlphanum || c = Char.ofNat 42 || c = Char.ofNat 45 || c = Char.ofNat 46 || c = Char.ofNat 95 then
    String.singleton c
  else if c = Char.ofNat 32 then "+"
  else String.join (((String.singleton c).toUTF8.toList).map (fun b => percentEncodeByte b.toNat))

def formEncode (s : String) : String := String.join (s.data.map formEncodeChar)

/-- `new URLSearchParams(pairs).toString()`. -/
def formParams (ps : List (String × String)) : String :=
  String.intercalate "&" (ps.map (fun p => formEncode p.1 ++ "=" ++ formEncode p.2))

def isTabOrNewline (c : Char) : Bool := c.toNat = 9 || c.toNat = 10 || c.toNat = 13

def isC0OrSpace (c : Char) : Bool := c.toNat ≤ 32

/-- The WHATWG URL parser first trims C0-control/space characters at both
ends, then removes tab and newline characters everywhere. -/
def urlPreprocess (s : String) : String :=
  String.mk ((((s.data.dropWhile isC0OrSpace).reverse.dropWhile isC0OrSpace).reverse).filter
    (fun c => !isTabOrNewline c))

/-- ASCII lowercasing of one character (the URL parser lowercases the
scheme; schemes are ASCII). -/
def asciiLowerChar (c : Char) : Char :=
  if 65 ≤ c.toNat ∧ c.toNat ≤ 90 then Char.ofNat (c.toNat + 32) else c

def schemeRestChar (c : Char) : Bool :=
  c.isAlphanum || c = Char.ofNat 43 || c = Char.ofNat 45 || c = Char.ofNat 46

def validSchemeChars : List Char → Bool
  | [] => false
  | c :: cs => c.isAlpha && cs.all schemeRestChar

/-- Split a character list at the first occurrence of `target`. -/
def splitAtChar (target : Char) : List Char → Option (List Char × List Char)
  | [] => none
  | c :: cs =>
    if c = target then some ([], cs)
    else
      match splitAtChar target cs with
      | some p => some (c :: p.1, p.2)
      | none => none

def specialScheme (s : String) : Bool :=
  s = "http" || s = "https" || s = "ws" || s = "wss" || s = "ftp" || s = "file"

def slashOrBackslash (c : Char) : Bool := c.toNat = 47 || c.toNat = 92

def authorityEnd (c : Char) : Bool :=
  c.toNat = 47 || c.toNat = 92 || c.toNat = 63 || c.toNat = 35

/-- Code points the WHATWG parser forbids inside a host. -/
def forbiddenHostChar (c : Char) : Bool :=
  c.toNat = 0 || c.toNat = 32 || c.toNat = 35 || c.toNat = 47 || c.toNat = 60 ||
  c.toNat = 62 || c.toNat = 63 || c.toNat = 64 || c.toNat = 91 || c.toNat = 92 ||
  c.toNat = 93 || c.toNat = 94 || c.toNat = 124

/-- The authority up to the last commercial-at sign is userinfo; drop it. -/
def dropUserinfo (cs : List Char) : List Char :=
  match splitAtChar (Char.ofNat 64) cs.reverse with
  | some p => p.1.reverse
  | none => cs

/-- Host and optional numeric port (split at the last colon) are valid. -/
def hostPortOk (hostport : List Char) : Bool :=
  match splitAtChar (Char.ofNat 58) hostport.reverse with
  | some p =>
    let host := p.2.reverse
    let port := p.1.reverse
    host ≠ [] && host.all (fun c => !forbiddenHostChar c) && port.all Char.isDigit
  | none => hostport ≠ [] && hostport.all (fun c => !forbiddenHostChar c)

/-- Model of the browser's `new URL(input)` succeeding (WHATWG URL parsing):
the input must carry a well-formed scheme; special schemes additionally need
a valid non-empty host. IPv6 literal hosts and percent-escape validation are
not modelled; no claim depends on them. -/
def jsURLParses (input : String) : Bool :=
  let s := urlPreprocess input
  match splitAtChar (Char.ofNat 58) s.data with
  | none => false
  | some sp =>
    let scheme := String.mk (sp.1.map asciiLowerChar)
    if !validSchemeChars scheme.data then false
    else if specialScheme scheme then
      let afterSlashes := sp.2.dropWhile slashOrBackslash
      let authority := afterSlashes.takeWhile (fun c => !authorityEnd c)
      let hostport := dropUserinfo authority
      if scheme = "file" then true else hostPortOk hostport
    else true

/-- An outbound HTTP request as the components construct it. -/
inductive HttpRequest where
  | get (url : String)
  | post (url : String) (contentType : String) (body : String)
  deriving DecidableEq

/-- What the awaited `fetch` + `response.json()` chain produces: a parsed
response, or a rejection (network failure or body-parse failure) whose
exception message reaches the `catch` block. The browser's rejection for a
network-unreachable request is a `TypeError` with message "Failed to fetch". -/
inductive FetchOutcome where
  | response (ok : Bool) (status : Nat) (body : Json)
  | networkError (message : String)

/-- What an awaited axios GET produces, following the `error.response` /
`error.request` discrimination in `HelloWorldGenerator`. -/
inductive AxiosOutcome where
  | success (body : Json)
  | httpError (status : Nat) (body : Json)
  | noResponse
  | setupError (message : String)

/-- The message of the error thrown on a non-2xx response:
`data.error || fallback` (the thrown value is coerced to a string). -/
def serverErrorMsg (body : Json) (fallback : String) : String :=
  jsOrString (body.get? "error") fallback

/-- Truthiness of a possibly-undefined value (`undefined` is falsy). -/
def optTruthy : Option Json → Bool
  | some j => j.jsTruthy
  | none => false

/- ### NewsSearcher (`src/chatbot/src/App.js`) -/

structure NSForm where
  url : String
  query : String
  method : String
  deriving DecidableEq

/-- The three named form controls of the NewsSearcher. -/
inductive NSField where
  | url
  | query
  | method
  deriving DecidableEq

/-- The NewsSearcher's `useState` cells, plus a `pendingRequest` flag
modelling a dispatched fetch whose promise has not settled yet.
`error` holds a raw value because `setError(data.message)` stores the
uncoerced JSON value. -/
structure NSState where
  articles : Option Json
  isLoading : Bool
  error : Option Json
  formData : NSForm
  pendingRequest : Bool

def nsInit : NSState :=
  { articles := none, isLoading := false, error := none,
    formData := { url := "", query := "", method := "combined" },
    pendingRequest := false }

def nsSetField (f : NSForm) : NSField → String → NSForm
  | .url, v => { f with url := v }
  | .query, v => { f with query := v }
  | .method, v => { f with method := v }

/-- `handleInputChange`: a url value without an `http` prefix gets
`https://` (and `www.` unless already present) prepended; any change clears
the error. -/
def nsInputChange (s : NSState) (name : NSField) (value : String) : NSState :=
  let value' :=
    if name = NSField.url ∧ value ≠ "" ∧ ¬ (value.startsWith "http") then
      "https://" ++ (if value.startsWith "www." then "" else "www.") ++ value
    else value
  { s with formData := nsSetField s.formData name value', error := none }

/-- The synchronous prefix of `handleSubmit` before the await: loading on,
previous articles and error cleared, fetch dispatched. -/
def nsSubmitStart (s : NSState) : NSState :=
  { s with isLoading := true, articles := none, error := none, pendingRequest := true }

/-- The GET request `handleSubmit` dispatches. -/
def nsRequest (f : NSForm) : HttpRequest :=
  .get ("http://localhost:8000/search?" ++
    formParams [("url", f.url), ("query", f.query), ("method", f.method)])

/-- The remainder of `handleSubmit` once the awaited response settles:
the try/catch/finally of `NewsSearcher.handleSubmit`. -/
def nsSettle (s : NSState) (o : FetchOutcome) : NSState :=
  match o with
  | .networkError m =>
    { s with error := some (.str (jsOr m "Failed to search articles. Please try again.")),
             articles := none, isLoading := false, pendingRequest := false }
  | .response ok status body =>
    if ok then
      match body.get? "articles" with
      | some (.arr _) =>
        { s with articles := some body, isLoading := false, pendingRequest := false }
      | _ =>
        match body.get? "message" with
        | some m =>
          if m.jsTruthy then
            { s with error := some m, isLoading := false, pendingRequest := false }
          else
            { s with error := some (.str "Invalid response format from server"),
                     articles := none, isLoading := false, pendingRequest := false }
        | none =>
          { s with error := some (.str "Invalid response format from server"),
                   articles := none, isLoading := false, pendingRequest := false }
    else
      { s with error := some (.str (jsOr
          (serverErrorMsg body ("Server error (" ++ toString status ++ "). Please try again."))
          "Failed to search articles. Please try again.")),
               articles := none, isLoading := false, pendingRequest := false }

/- ### SourcesGenerator (`src/chatbot/src/components/SourcesGenerator.jsx`) -/

structure SGForm where
  language : String
  topic : String
  deriving DecidableEq

inductive SGField where
  | language
  | topic
  deriving DecidableEq

/-- The record `setSourcesData` stores on success. -/
structure SGData where
  topic : String
  created_at : String
  sources : List Json

structure SGState where
  sourcesData : Option SGData
  isLoading : Bool
  error : Option Json
  formData : SGForm
  pendingRequest : Bool

def sgInit : SGState :=
  { sourcesData := none, isLoading := false, error := none,
    formData := { language := "en", topic := "" }, pendingRequest := false }

def sgSetField (f : SGForm) : SGField → String → SGForm
  | .language, v => { f with language := v }
  | .topic, v => { f with topic := v }

def sgInputChange (s : SGState) (name : SGField) (value : String) : SGState :=
  { s with formData := sgSetField s.formData name value, error := none }

def sgSubmitStart (s : SGState) : SGState :=
  { s with isLoading := true, sourcesData := none, error := none, pendingRequest := true }

/-- The POST request `handleSubmit` dispatches: an empty topic falls back to
the default question. -/
def sgRequest (f : SGForm) : HttpRequest :=
  .post "http://localhost:8002/sources" "application/json"
    (Json.stringify (.obj [("question", .str (jsOr f.topic "Show me general news sources"))]))

/-- The try/catch/finally of `SourcesGenerator.handleSubmit` after the
response settles; `now` is the value of `new Date().toISOString()`. -/
def sgSettle (s : SGState) (o : FetchOutcome) (now : String) : SGState :=
  match o with
  | .networkError m =>
    { s with error := some (.str (jsOr m "Failed to generate sources. Please try again.")),
             sourcesData := none, isLoading := false, pendingRequest := false }
  | .response ok status body =>
    if ok then
      let answer := body.get? "answer"
      let sources := match answer with
        | some a => a.get? "sources"
        | none => none
      if !(optTruthy answer && optTruthy sources) then
        { s with error := some (.str "No sources found. Please try a different topic."),
                 sourcesData := none, isLoading := false, pendingRequest := false }
      else
        match sources with
        | some (.arr xs) =>
          if xs.length = 0 then
            { s with error := some (.str
                "No sources available for this topic. Please try a different search."),
                     sourcesData := none, isLoading := false, pendingRequest := false }
          else
            let d := SGData.mk (jsOr s.formData.topic "General News") now xs
            { s with sourcesData := some d, isLoading := false, pendingRequest := false }
        | _ =>
          { s with error := some (.str
              "No sources available for this topic. Please try a different search."),
                   sourcesData := none, isLoading := false, pendingRequest := false }
    else
      { s with error := some (.str (jsOr
          (serverErrorMsg body ("Server error (" ++ toString status ++ "). Please try again."))
          "Failed to generate sources. Please try again.")),
               sourcesData := none, isLoading := false, pendingRequest := false }

/- ### HelloWorldGenerator (`src/chatbot/src/components/HelloWorldGenerator.jsx`) -/

/-- The HelloWorldGenerator's `useState` cells. `answer` starts as the empty
string and `setAnswer(response.data.answer)` stores the raw JSON value. -/
structure HWState where
  question : String
  answer : Json
  isLoading : Bool
  error : Option Json
  pendingRequest : Bool

def hwInit : HWState :=
  { question := "", answer := .str "", isLoading := false, error := none,
    pendingRequest := false }

def hwInputChange (s : HWState) (value : String) : HWState :=
  { s with question := value, error := none }

/-- The synchronous part of `handleSubmit`: an all-whitespace question is
rejected before dispatch with a validation message (and nothing else
changes); otherwise loading starts, the previous answer and error are
cleared, and the GET request is dispatched. -/
def hwSubmit (s : HWState) : HWState :=
  if jsTrim s.question = "" then
    { s with error := some (.str "Please enter a question") }
  else
    { s with isLoading := true, answer := .str "", error := none, pendingRequest := true }

/-- The GET request dispatched for a non-blank question (axios serializes
`params` with `encodeURIComponent`-style escaping). -/
def hwRequest (question : String) : HttpRequest :=
  .get ("http://localhost:8002/ask?question=" ++ encodeURIComponent (jsTrim question))

/-- The try/catch/finally of `HelloWorldGenerator.handleSubmit` after the
awaited axios call settles. `setError(error.response.data?.error || ...)`
stores the raw server value, hence `error : Option Json`. -/
def hwSettle (s : HWState) (o : AxiosOutcome) : HWState :=
  match o with
  | .success body =>
    match (if body.jsTruthy then body.get? "answer" else none) with
    | some a =>
      if a.jsTruthy then
        { s with answer := a, isLoading := false, pendingRequest := false }
      else
        { s with error := some (.str "Invalid response format from server"),
                 isLoading := false, pendingRequest := false }
    | none =>
      { s with error := some (.str "Invalid response format from server"),
               isLoading := false, pendingRequest := false }
  | .httpError status body =>
    { s with error := some (match body.get? "error" with
        | some j => if j.jsTruthy then j else .str ("Server error: " ++ toString status)
        | none => .str ("Server error: " ++ toString status)),
             isLoading := false, pendingRequest := false }
  | .noResponse =>
    { s with error := some (.str "No response from server. Please check if the backend is running."),
             isLoading := false, pendingRequest := false }
  | .setupError m =>
    { s with error := some (.str (jsOr m "Failed to get an answer. Please try again.")),
             isLoading := false, pendingRequest := false }

/- ### NewsAggregator (`src/unnamed/part_000`) -/

structure NAForm where
  language : String
  topic : String
  deriving DecidableEq

structure NAState where
  data : Option Json
  isLoading : Bool
  error : Option Json
  formData : NAForm
  pendingRequest : Bool

def naInit : NAState :=
  { data := none, isLoading := false, error := none,
    formData := { language := "en", topic := "" }, pendingRequest := false }

def naSubmitStart (s : NAState) : NAState :=
  { s with isLoading := true, data := none, error := none, pendingRequest := true }

/-- The GET request `NewsAggregator.handleSubmit` dispatches: only the topic
flows into the URL. -/
def naRequest (f : NAForm) : HttpRequest :=
  .get ("http://localhost:8003/coordinate?question=" ++ encodeURIComponent f.topic)

/-- The try/catch/finally of `NewsAggregator.handleSubmit`. -/
def naSettle (s : NAState) (o : FetchOutcome) : NAState :=
  match o with
  | .networkError m =>
    { s with error := some (.str (jsOr m "Failed to fetch data")),
             isLoading := false, pendingRequest := false }
  | .response ok status body =>
    if ok then
      { s with data := some body, isLoading := false, pendingRequest := false }
    else
      { s with error := some (.str (jsOr
          (serverErrorMsg body ("Server error (" ++ toString status ++ ")"))
          "Failed to fetch data")),
               isLoading := false, pendingRequest := false }

/-- `new URL(source.url)` coerces its argument to a string; an absent value
becomes the string "undefined". -/
def jsURLArg : Option Json → String
  | none => "undefined"
  | some j => j.jsToString

/-- `isValidUrl` from `SourceCard`: whether `new URL(url)` succeeds. -/
def isValidUrl (v : Option Json) : Bool := jsURLParses (jsURLArg v)

/-- The regex replace `^https?:\/\/` (anchored, applied once). -/
def stripScheme (s : String) : String :=
  if List.isPrefixOf "https://".data s.data then String.mk (s.data.drop 8)
  else if List.isPrefixOf "http://".data s.data then String.mk (s.data.drop 7)
  else s

/-- The regex replace `\/$` (one trailing slash). -/
def stripEndSlash (s : String) : String :=
  match s.data.reverse with
  | c :: rest => if c = Char.ofNat 47 then String.mk rest.reverse else s
  | [] => s

/-- `formatUrl` from `SourceCard`: scheme and trailing slash removed, then
truncated to 40 UTF-16 units with an ellipsis. -/
def formatUrl (url : String) : String :=
  let f := stripEndSlash (stripScheme url)
  if utf16Len f > 40 then utf16Take 40 f ++ "..." else f

/-- Stand-in for the platform's `new Date(d).toLocaleDateString()`: its
output is locale-defined and no claim depends on it, only on the placeholder
branch of `formatDate`. -/
def localeDateDisplay (s : String) : String := s

/- ### Card renderers -/

/-- `formatDate` in the article cards: a falsy date yields the placeholder,
otherwise the platform's `toLocaleDateString` output. -/
def formatDateJS (v : Option Json) : String :=
  match v with
  | some j => if j.jsTruthy then localeDateDisplay j.jsToString else "Date not available"
  | none => "Date not available"

/-- The conditional `article.image_url && <img src=... />`. -/
def imageSection (v : Option Json) : Option String :=
  match v with
  | some j => if j.jsTruthy then some j.jsToString else none
  | none => none

/-- The authors block of the `ArticleCard` in `App.js`
(`article.authors.length > 0 && ...authors.join(', ')`): accessing `length`
on undefined or null throws, so rendering fails (`none`); a nonempty string
passes the length test but then throws on `join`; other non-array values
have an undefined `length` and the block is simply skipped. The result is
`some line?` where `line?` is the optional rendered authors line. -/
def authorsSection : Option Json → Option (Option String)
  | none => none
  | some Json.null => none
  | some (Json.arr xs) =>
    if 0 < xs.length then some (some (jsJoinWith ", " xs)) else some none
  | some (Json.str s) => if 0 < utf16Len s then none else some none
  | some (Json.obj fs) =>
    match lookupField fs "length" with
    | some (Json.num n) => if 0 < n then none else some none
    | _ => some none
  | some _ => some none

/-- The authors block of the aggregator's `ArticleCard`
(`article.authors?.length > 0`): optional chaining makes undefined and null
safe. -/
def authorsSectionNA : Option Json → Option (Option String)
  | none => some none
  | some Json.null => some none
  | some (Json.arr xs) =>
    if 0 < xs.length then some (some (jsJoinWith ", " xs)) else some none
  | some (Json.str s) => if 0 < utf16Len s then none else some none
  | some (Json.obj fs) =>
    match lookupField fs "length" with
    | some (Json.num n) => if 0 < n then none else some none
    | _ => some none
  | some _ => some none

/-- The visible pieces of one rendered article card. -/
structure ArticleCardView where
  title : String
  image : Option String
  summary : String
  category : String
  published : String
  authorsLine : Option String
  sourceDomain : String
  linkHref : Option String
  deriving DecidableEq

/-- An `ArticleCard` render, parameterized by the authors block (the two
copies of the component differ only there). `none` is a render crash. -/
def renderArticleCardWith (authorsFn : Option Json → Option (Option String)) (a : Json) :
    Option ArticleCardView :=
  match reactText (a.get? "title"), jsOrText (a.get? "summary") "No summary available",
        reactText (a.get? "category"), authorsFn (a.get? "authors"),
        reactText (a.get? "source_domain") with
  | some title, some summary, some category, some authorsLine, some sourceDomain =>
    some { title := title, image := imageSection (a.get? "image_url"), summary := summary,
           category := category, published := formatDateJS (a.get? "publish_date"),
           authorsLine := authorsLine, sourceDomain := sourceDomain,
           linkHref := jsAttr (a.get? "url") }
  | _, _, _, _, _ => none

/-- `ArticleCard` from `src/chatbot/src/App.js` (NewsSearcher). -/
def renderArticleCardNS (a : Json) : Option ArticleCardView :=
  renderArticleCardWith authorsSection a

/-- `ArticleCard` from the NewsAggregator component. -/
def renderArticleCardNA (a : Json) : Option ArticleCardView :=
  renderArticleCardWith authorsSectionNA a

/-- The footer of a `SourceCard`: either an anchor (with its displayed text
and its `href`), or the italic fallback paragraph with no anchor. -/
inductive SourceCardFooter where
  | link (display : String) (href : String)
  | fallbackText (message : String)
  deriving DecidableEq

structure SourceCardView where
  name : String
  description : String
  footer : SourceCardFooter
  deriving DecidableEq

/-- The `isValidUrl(source.url)` branch of `SourceCard`. On the valid branch
`formatUrl` is applied when the url is a string; on a non-string value
`url.replace` throws, `formatUrl`'s catch returns the value unchanged and
the JSX renders it raw. -/
def sourceFooter (urlv : Option Json) : Option SourceCardFooter :=
  if isValidUrl urlv then
    match urlv with
    | some (Json.str u) => some (SourceCardFooter.link (formatUrl u) u)
    | some j => (reactNodeText j).map (fun d => SourceCardFooter.link d j.jsToString)
    | none => some (SourceCardFooter.link "" "undefined")
  else some (SourceCardFooter.fallbackText "Invalid or missing URL")

/-- `SourceCard` from `SourcesGenerator.jsx` (the aggregator carries an
identical copy up to CSS class names). `none` is a render crash. -/
def renderSourceCard (s : Json) : Option SourceCardView :=
  match jsOrText (s.get? "name") "Unnamed Source",
        jsOrText (s.get? "description") "No description available",
        sourceFooter (s.get? "url") with
  | some name, some description, some footer =>
    some { name := name, description := description, footer := footer }
  | _, _, _ => none

/-- The article grid the NewsSearcher renders from a stored payload:
`articles.articles.map((article, index) => <ArticleCard ... />)`. -/
def nsRenderedCards (body : Json) : List (Option ArticleCardView) :=
  match body.get? "articles" with
  | some (.arr xs) => xs.map renderArticleCardNS
  | _ => []

/-- The source grid the SourcesGenerator renders:
`sourcesData.sources.map((source, index) => <SourceCard ... />)`. -/
def sgRenderedCards (d : SGData) : List (Option SourceCardView) :=
  d.sources.map renderSourceCard

/-- The aggregator's article grid: `data.articles.map(...)`. -/
def naRenderedArticleCards (body : Json) : List (Option ArticleCardView) :=
  match body.get? "articles" with
  | some (.arr xs) => xs.map renderArticleCardNA
  | _ => []

/-- The aggregator's source grid: `data.sources.map(...)`. -/
def naRenderedSourceCards (body : Json) : List (Option SourceCardView) :=
  match body.get? "sources" with
  | some (.arr xs) => xs.map renderSourceCard
  | _ => []

/- ### Submission pipelines (browser constraint validation + handler) -/

/-- The fate of one submission attempt before any response arrives. -/
inductive SubmitAttempt where
  | blockedByBrowser
  | blockedByHandler (message : String)
  | dispatched (req : HttpRequest)
  deriving DecidableEq

/-- Submitting the NewsSearcher form: its `url` and `query` inputs carry the
HTML `required` attribute, so the browser's constraint validation blocks the
submit event (and shows its validation bubble) while either is empty; the
handler itself performs no validation. -/
def nsSubmitPipeline (f : NSForm) : SubmitAttempt :=
  if f.url = "" ∨ f.query = "" then .blockedByBrowser else .dispatched (nsRequest f)

/-- Submitting the NewsAggregator form: its `topic` input is `required`. -/
def naSubmitPipeline (f : NAForm) : SubmitAttempt :=
  if f.topic = "" then .blockedByBrowser else .dispatched (naRequest f)

/-- Submitting the HelloWorld form: no `required` attribute, but the handler
returns before dispatch, with a validation message, when the trimmed
question is empty. -/
def hwSubmitPipeline (question : String) : SubmitAttempt :=
  if jsTrim question = "" then .blockedByHandler "Please enter a question"
  else .dispatched (hwRequest question)

/-- Submitting the SourcesGenerator form: no required field and no handler
validation; every submission dispatches. -/
def sgSubmitPipeline (f : SGForm) : SubmitAttempt :=
  .dispatched (sgRequest f)

/- ### View-state machines -/

/-- One UI event of the NewsSearcher page. Input and submit events require
`isLoading = false` because every form control carries
`disabled={isLoading}`; a settle event requires a pending request. -/
inductive NSStep : NSState → NSState → Prop
  | input (s : NSState) (name : NSField) (value : String) (h : s.isLoading = false) :
      NSStep s (nsInputChange s name value)
  | submit (s : NSState) (h : s.isLoading = false) :
      NSStep s (nsSubmitStart s)
  | settle (s : NSState) (o : FetchOutcome) (h : s.pendingRequest = true) :
      NSStep s (nsSettle s o)

inductive NSReachable : NSState → Prop
  | init : NSReachable nsInit
  | step {s t : NSState} : NSReachable s → NSStep s t → NSReachable t

/-- One UI event of the SourcesGenerator page. -/
inductive SGStep : SGState → SGState → Prop
  | input (s : SGState) (name : SGField) (value : String) (h : s.isLoading = false) :
      SGStep s (sgInputChange s name value)
  | submit (s : SGState) (h : s.isLoading = false) :
      SGStep s (sgSubmitStart s)
  | settle (s : SGState) (o : FetchOutcome) (now : String) (h : s.pendingRequest = true) :
      SGStep s (sgSettle s o now)

inductive SGReachable : SGState → Prop
  | init : SGReachable sgInit
  | step {s t : SGState} : SGReachable s → SGStep s t → SGReachable t

/-- One UI event of the HelloWorld page. The submit button carries
`disabled={isLoading || !question}`, so a submit event additionally requires
a non-empty (though possibly all-whitespace) question. -/
inductive HWStep : HWState → HWState → Prop
  | input (s : HWState) (value : String) (h : s.isLoading = false) :
      HWStep s (hwInputChange s value)
  | submit (s : HWState) (h : s.isLoading = false) (hq : s.question ≠ "") :
      HWStep s (hwSubmit s)
  | settle (s : HWState) (o : AxiosOutcome) (h : s.pendingRequest = true) :
      HWStep s (hwSettle s o)

inductive HWReachable : HWState → Prop
  | init : HWReachable hwInit
  | step {s t : HWState} : HWReachable s → HWStep s t → HWReachable t

/- ### View-state predicates -/

/-- NewsSearcher Loading view: spinner on, no payload, no error. -/
def nsLoadingView (s : NSState) : Prop :=
  s.isLoading = true ∧ s.articles = none ∧ s.error = none

def nsSuccessView (s : NSState) : Prop :=
  s.isLoading = false ∧ s.articles.isSome = true ∧ s.error = none

def nsErrorView (s : NSState) : Prop :=
  s.isLoading = false ∧ s.articles = none ∧ s.error.isSome = true

def sgLoadingView (s : SGState) : Prop :=
  s.isLoading = true ∧ s.sourcesData = none ∧ s.error = none

def sgSuccessView (s : SGState) : Prop :=
  s.isLoading = false ∧ s.sourcesData.isSome = true ∧ s.error = none

def sgErrorView (s : SGState) : Prop :=
  s.isLoading = false ∧ s.sourcesData = none ∧ s.error.isSome = true

/-- HelloWorld Loading view: the answer cell holds the cleared empty string. -/
def hwLoadingView (s : HWState) : Prop :=
  s.isLoading = true ∧ s.answer = Json.str "" ∧ s.error = none

/-- HelloWorld Success view: a truthy stored answer is what `answer && ...`
renders. -/
def hwSuccessView (s : HWState) : Prop :=
  s.isLoading = false ∧ s.answer.jsTruthy = true ∧ s.error = none

def hwErrorView (s : HWState) : Prop :=
  s.isLoading = false ∧ s.answer = Json.str "" ∧ s.error.isSome = true

/-- Pairwise mutual exclusion of loading, non-null payload and non-null
error for the NewsSearcher state. -/
def nsMutex (s : NSState) : Prop :=
  ¬(s.isLoading = true ∧ s.articles.isSome = true) ∧
  ¬(s.isLoading = true ∧ s.error.isSome = true) ∧
  ¬(s.articles.isSome = true ∧ s.error.isSome = true)

def sgMutex (s : SGState) : Prop :=
  ¬(s.isLoading = true ∧ s.sourcesData.isSome = true) ∧
  ¬(s.isLoading = true ∧ s.error.isSome = true) ∧
  ¬(s.sourcesData.isSome = true ∧ s.error.isSome = true)

/-- The HelloWorld success payload is active when the stored answer is
truthy. -/
def hwMutex (s : HWState) : Prop :=
  ¬(s.isLoading = true ∧ s.answer.jsTruthy = true) ∧
  ¬(s.isLoading = true ∧ s.error.isSome = true) ∧
  ¬(s.answer.jsTruthy = true ∧ s.error.isSome = true)

/- ### Settle shape lemmas -/

/-- From a freshly-cleared loading state, a settling NewsSearcher response
always lands in exactly one of the Success and Error shapes. -/
theorem nsSettle_shape (s : NSState) (o : FetchOutcome)
    (ha : s.articles = none) (he : s.error = none) :
    (nsSettle s o).isLoading = false ∧ (nsSettle s o).pendingRequest = false ∧
    (((nsSettle s o).articles.isSome = true ∧ (nsSettle s o).error = none) ∨
     ((nsSettle s o).articles = none ∧ (nsSettle s o).error.isSome = true)) := by
  cases o with
  | networkError m => simp [nsSettle]
  | response ok status body =>
    cases ok with
    | false => simp [nsSettle]
    | true =>
      cases h1 : body.get? "articles" with
      | some j =>
        cases j <;> simp [nsSettle, h1, ha, he] <;>
          cases h2 : body.get? "message" <;> simp [h2, ha] <;>
          split <;> simp [ha]
      | none =>
        simp only [nsSettle, h1]
        cases h2 : body.get? "message" with
        | none => simp [h2, ha]
        | some m =>
          simp [h2, ha]
          split <;> simp [ha]

/-- From a freshly-cleared loading state, a settling SourcesGenerator
response always lands in exactly one of the Success and Error shapes. -/
theorem sgSettle_shape (s : SGState) (o : FetchOutcome) (now : String)
    (he : s.error = none) :
    (sgSettle s o now).isLoading = false ∧ (sgSettle s o now).pendingRequest = false ∧
    (((sgSettle s o now).sourcesData.isSome = true ∧ (sgSettle s o now).error = none) ∨
     ((sgSettle s o now).sourcesData = none ∧ (sgSettle s o now).error.isSome = true)) := by
  cases o with
  | networkError m => simp [sgSettle]
  | response ok status body =>
    cases ok with
    | false => simp [sgSettle]
    | true =>
      simp only [sgSettle, eq_self_iff_true, if_true]
      split
      · simp
      · split
        · split
          · simp
          · simp [he]
        · simp

/-- From a freshly-cleared loading state, a settling HelloWorld response
always lands in exactly one of the Success and Error shapes. -/
theorem hwSettle_shape (s : HWState) (o : AxiosOutcome)
    (ha : s.answer = Json.str "") (he : s.error = none) :
    (hwSettle s o).isLoading = false ∧ (hwSettle s o).pendingRequest = false ∧
    (((hwSettle s o).answer.jsTruthy = true ∧ (hwSettle s o).error = none) ∨
     ((hwSettle s o).answer = Json.str "" ∧ (hwSettle s o).error.isSome = true)) := by
  cases o with
  | success body =>
    simp only [hwSettle]
    split
    · split
      · next htr => simp [htr, he]
      · simp [ha]
    · simp [ha]
  | httpError status body => simp [hwSettle, ha]
  | noResponse => simp [hwSettle, ha]
  | setupError m => simp [hwSettle, ha]

/- ### Inductive invariants of the view-state machines -/

/-- Inductive invariant of the NewsSearcher machine: a pending request means
loading, loading means a cleared view, and payload and error are never both
present. -/
def nsInv (s : NSState) : Prop :=
  (s.pendingRequest = true → s.isLoading = true) ∧
  (s.isLoading = true → s.articles = none ∧ s.error = none) ∧
  ¬(s.articles.isSome = true ∧ s.error.isSome = true)

theorem nsInv_reachable {s : NSState} (h : NSReachable s) : nsInv s := by
  induction h with
  | init => simp [nsInv, nsInit]
  | step hr hst ih =>
    obtain ⟨i1, i2, i3⟩ := ih
    cases hst with
    | input name value hL =>
      refine ⟨fun hc => ?_, fun hc => ?_, ?_⟩
      · simp only [nsInputChange] at hc ⊢; exact i1 hc
      · simp only [nsInputChange] at hc; exact absurd hc (by simp [hL])
      · simp [nsInputChange]
    | submit hL => simp [nsInv, nsSubmitStart]
    | settle o hp =>
      obtain ⟨hA, hE⟩ := i2 (i1 hp)
      obtain ⟨hL, hP, hXor⟩ := nsSettle_shape _ o hA hE
      refine ⟨fun hc => ?_, fun hc => ?_, ?_⟩
      · exact absurd hc (by simp [hP])
      · exact absurd hc (by simp [hL])
      · rcases hXor with ⟨h1, h2⟩ | ⟨h1, h2⟩ <;> simp [h1, h2]

/-- Inductive invariant of the SourcesGenerator machine. -/
def sgInv (s : SGState) : Prop :=
  (s.pendingRequest = true → s.isLoading = true) ∧
  (s.isLoading = true → s.sourcesData = none ∧ s.error = none) ∧
  ¬(s.sourcesData.isSome = true ∧ s.error.isSome = true)

theorem sgInv_reachable {s : SGState} (h : SGReachable s) : sgInv s := by
  induction h with
  | init => simp [sgInv, sgInit]
  | step hr hst ih =>
    obtain ⟨i1, i2, i3⟩ := ih
    cases hst with
    | input name value hL =>
      refine ⟨fun hc => ?_, fun hc => ?_, ?_⟩
      · simp only [sgInputChange] at hc ⊢; exact i1 hc
      · simp only [sgInputChange] at hc; exact absurd hc (by simp [hL])
      · simp [sgInputChange]
    | submit hL => simp [sgInv, sgSubmitStart]
    | settle o now hp =>
      obtain ⟨hA, hE⟩ := i2 (i1 hp)
      obtain ⟨hL, hP, hXor⟩ := sgSettle_shape _ o now hE
      refine ⟨fun hc => ?_, fun hc => ?_, ?_⟩
      · exact absurd hc (by simp [hP])
      · exact absurd hc (by simp [hL])
      · rcases hXor with ⟨h1, h2⟩ | ⟨h1, h2⟩ <;> simp [h1, h2]

/-- Inductive invariant of the HelloWorld machine: loading always has a
cleared answer and error. Unlike the other two pages, payload/error mutual
exclusion is NOT an invariant here (see the counterexample for C7). -/
def hwInv (s : HWState) : Prop :=
  (s.pendingRequest = true → s.isLoading = true) ∧
  (s.isLoading = true → s.answer = Json.str "" ∧ s.error = none)

theorem hwInv_reachable {s : HWState} (h : HWReachable s) : hwInv s := by
  induction h with
  | init => simp [hwInv, hwInit]
  | step hr hst ih =>
    obtain ⟨i1, i2⟩ := ih
    cases hst with
    | input value hL =>
      refine ⟨fun hc => ?_, fun hc => ?_⟩
      · simp only [hwInputChange] at hc ⊢; exact i1 hc
      · simp only [hwInputChange] at hc; exact absurd hc (by simp [hL])
    | submit hL hq =>
      unfold hwSubmit
      split
      · refine ⟨fun hc => ?_, fun hc => ?_⟩
        · simp only at hc ⊢; exact i1 hc
        · simp only at hc; exact absurd hc (by simp [hL])
      · exact ⟨fun _ => rfl, fun _ => ⟨rfl, rfl⟩⟩
    | settle o hp =>
      obtain ⟨hA, hE⟩ := i2 (i1 hp)
      obtain ⟨hL, hP, _⟩ := hwSettle_shape _ o hA hE
      refine ⟨fun hc => ?_, fun hc => ?_⟩
      · exact absurd hc (by simp [hP])
      · exact absurd hc (by simp [hL])

/- ### Claim C1 -/

/-- Claim C1: for every valid form input (the NewsSearcher's required url
and query nonempty; the HelloWorld question not all-whitespace; any
SourcesGenerator input), a single submission first reaches the Loading view
with the previous payload and error cleared while the request is in flight,
and once the response settles it reaches exactly one of the Success and
Error views — Loading is never skipped. -/
theorem c1_single_submission_idle_loading_then_success_xor_error :
    (∀ (s : NSState) (o : FetchOutcome), s.formData.url ≠ "" → s.formData.query ≠ "" →
      (nsLoadingView (nsSubmitStart s) ∧ (nsSubmitStart s).pendingRequest = true) ∧
      Xor' (nsSuccessView (nsSettle (nsSubmitStart s) o))
           (nsErrorView (nsSettle (nsSubmitStart s) o))) ∧
    (∀ (s : SGState) (o : FetchOutcome) (now : String),
      (sgLoadingView (sgSubmitStart s) ∧ (sgSubmitStart s).pendingRequest = true) ∧
      Xor' (sgSuccessView (sgSettle (sgSubmitStart s) o now))
           (sgErrorView (sgSettle (sgSubmitStart s) o now))) ∧
    (∀ (s : HWState) (o : AxiosOutcome), jsTrim s.question ≠ "" →
      (hwLoadingView (hwSubmit s) ∧ (hwSubmit s).pendingRequest = true) ∧
      Xor' (hwSuccessView (hwSettle (hwSubmit s) o))
           (hwErrorView (hwSettle (hwSubmit s) o))) := by
  refine ⟨fun s o hu hq => ?_, fun s o now => ?_, fun s o hq => ?_⟩
  · obtain ⟨hL, hP, hXor⟩ := nsSettle_shape (nsSubmitStart s) o rfl rfl
    refine ⟨⟨⟨rfl, rfl, rfl⟩, rfl⟩, ?_⟩
    rcases hXor with ⟨h1, h2⟩ | ⟨h1, h2⟩
    · exact Or.inl ⟨⟨hL, h1, h2⟩, fun he => by
        obtain ⟨_, hA, _⟩ := he; rw [hA] at h1; simp at h1⟩
    · exact Or.inr ⟨⟨hL, h1, h2⟩, fun hs => by
        obtain ⟨_, hA, _⟩ := hs; rw [h1] at hA; simp at hA⟩
  · obtain ⟨hL, hP, hXor⟩ := sgSettle_shape (sgSubmitStart s) o now rfl
    refine ⟨⟨⟨rfl, rfl, rfl⟩, rfl⟩, ?_⟩
    rcases hXor with ⟨h1, h2⟩ | ⟨h1, h2⟩
    · exact Or.inl ⟨⟨hL, h1, h2⟩, fun he => by
        obtain ⟨_, hA, _⟩ := he; rw [hA] at h1; simp at h1⟩
    · exact Or.inr ⟨⟨hL, h1, h2⟩, fun hs => by
        obtain ⟨_, hA, _⟩ := hs; rw [h1] at hA; simp at hA⟩
  · have hsub : hwSubmit s =
        { s with isLoading := true, answer := Json.str "", error := none,
                 pendingRequest := true } := by
      simp [hwSubmit, hq]
    obtain ⟨hL, hP, hXor⟩ := hwSettle_shape (hwSubmit s) o (by rw [hsub]) (by rw [hsub])
    refine ⟨⟨by rw [hsub]; exact ⟨rfl, rfl, rfl⟩, by rw [hsub]⟩, ?_⟩
    rcases hXor with ⟨h1, h2⟩ | ⟨h1, h2⟩
    · exact Or.inl ⟨⟨hL, h1, h2⟩, fun he => by
        obtain ⟨_, hA, _⟩ := he; rw [hA] at h1; simp [Json.jsTruthy] at h1⟩
    · exact Or.inr ⟨⟨hL, h1, h2⟩, fun hs => by
        obtain ⟨_, hA, _⟩ := hs; rw [h1] at hA; simp [Json.jsTruthy] at hA⟩

/-- Concrete instantiation of C1 (all hypotheses discharged): a searcher
submission with filled-in required fields against a network failure, a
sources submission against a 200 payload, a question submission against a
2xx answer. -/
theorem c1_single_submission_idle_loading_then_success_xor_error_witness :
    ((nsLoadingView (nsSubmitStart { nsInit with
        formData := NSForm.mk "https://www.cnn.com" "news" "combined" }) ∧
      (nsSubmitStart { nsInit with
        formData := NSForm.mk "https://www.cnn.com" "news" "combined" }).pendingRequest = true) ∧
      Xor' (nsSuccessView (nsSettle (nsSubmitStart { nsInit with
              formData := NSForm.mk "https://www.cnn.com" "news" "combined" })
              (.networkError "Failed to fetch")))
           (nsErrorView (nsSettle (nsSubmitStart { nsInit with
              formData := NSForm.mk "https://www.cnn.com" "news" "combined" })
              (.networkError "Failed to fetch")))) ∧
    ((sgLoadingView (sgSubmitStart sgInit) ∧ (sgSubmitStart sgInit).pendingRequest = true) ∧
      Xor' (sgSuccessView (sgSettle (sgSubmitStart sgInit)
              (.response true 200 (.obj [("answer",
                .obj [("sources", .arr [.obj [("url", .str "https://cnn.com")]])])])) "t0"))
           (sgErrorView (sgSettle (sgSubmitStart sgInit)
              (.response true 200 (.obj [("answer",
                .obj [("sources", .arr [.obj [("url", .str "https://cnn.com")]])])])) "t0"))) ∧
    ((hwLoadingView (hwSubmit { hwInit with question := "hi" }) ∧
      (hwSubmit { hwInit with question := "hi" }).pendingRequest = true) ∧
      Xor' (hwSuccessView (hwSettle (hwSubmit { hwInit with question := "hi" })
              (.success (.obj [("answer", .str "Hello")]))))
           (hwErrorView (hwSettle (hwSubmit { hwInit with question := "hi" })
              (.success (.obj [("answer", .str "Hello")]))))) := by
  refine ⟨?_, ?_, ?_⟩
  · exact c1_single_submission_idle_loading_then_success_xor_error.1 _ _
      (by decide) (by decide)
  · exact c1_single_submission_idle_loading_then_success_xor_error.2.1 _ _ _
  · exact c1_single_submission_idle_loading_then_success_xor_error.2.2 _ _
      (by decide)

/- ### Claim C2 -/

/-- Claim C2 counterexample: a non-2xx response whose JSON body carries the
error key with value `""` produces the fallback message, not the verbatim
value — `data.error || fallback` discards a falsy error string. -/
theorem c2_counterexample_empty_error_value_replaced :
    (nsSettle (nsSubmitStart nsInit)
        (.response false 500 (.obj [("error", .str "")]))).error =
      some (.str "Server error (500). Please try again.") ∧
    ("Server error (500). Please try again." ≠ "") := by
  exact ⟨rfl, by decide⟩

/-- Claim C2 (amended): for every non-2xx response whose JSON body carries
an error key with a NON-EMPTY string value X, the resulting Error state
message is X verbatim, on all four pages. -/
theorem c2_amended_nonempty_server_error_shown_verbatim :
    ∀ (X : String), X ≠ "" → ∀ (status : Nat) (body : Json),
      body.get? "error" = some (.str X) →
      ∀ (s1 : NSState) (s2 : SGState) (s3 : HWState) (s4 : NAState) (now : String),
        (nsSettle s1 (.response false status body)).error = some (.str X) ∧
        (sgSettle s2 (.response false status body) now).error = some (.str X) ∧
        (hwSettle s3 (.httpError status body)).error = some (.str X) ∧
        (naSettle s4 (.response false status body)).error = some (.str X) := by
  intro X hX status body hbody s1 s2 s3 s4 now
  have htr : Json.jsTruthy (.str X) = true := by simp [Json.jsTruthy, hX]
  have hmsg : ∀ fb, serverErrorMsg body fb = X := by
    intro fb
    simp [serverErrorMsg, jsOrString, hbody, htr, Json.jsToString]
  refine ⟨?_, ?_, ?_, ?_⟩
  · simp [nsSettle, hmsg, jsOr, hX]
  · simp [sgSettle, hmsg, jsOr, hX]
  · simp [hwSettle, hbody, htr]
  · simp [naSettle, hmsg, jsOr, hX]

/-- Concrete instantiation of C2 (amended): a 404 with error "boom" shows
"boom" on every page. -/
theorem c2_amended_nonempty_server_error_shown_verbatim_witness :
    (nsSettle nsInit (.response false 404 (.obj [("error", .str "boom")]))).error =
      some (.str "boom") ∧
    (sgSettle sgInit (.response false 404 (.obj [("error", .str "boom")])) "t0").error =
      some (.str "boom") ∧
    (hwSettle hwInit (.httpError 404 (.obj [("error", .str "boom")]))).error =
      some (.str "boom") ∧
    (naSettle naInit (.response false 404 (.obj [("error", .str "boom")]))).error =
      some (.str "boom") :=
  c2_amended_nonempty_server_error_shown_verbatim "boom" (by decide) 404
    (.obj [("error", .str "boom")]) rfl nsInit sgInit hwInit naInit "t0"

/- ### Claim C3 -/

/-- Claim C3 counterexample: rendering an article with all optional fields
absent — in particular `authors` — makes the NewsSearcher's `ArticleCard`
fail (`article.authors.length` throws on undefined), instead of succeeding
with placeholder text. -/
theorem c3_counterexample_missing_authors_crashes_searcher_card :
    renderArticleCardNS (.obj [("title", .str "T"), ("category", .str "News"),
      ("source_domain", .str "cnn.com"), ("url", .str "https://cnn.com/a")]) = none := by
  rfl

/-- Claim C3 (amended): an article record missing `summary`, `image_url` and
`publish_date` renders with the placeholder/default texts in both card
renderers; an absent `authors` field is additionally tolerated by the
aggregator's card (authors line omitted) but makes the NewsSearcher's card
renderer fail. -/
theorem c3_amended_optional_fields_default_but_searcher_needs_authors :
    ∀ (a : Json),
      a.get? "summary" = none → a.get? "image_url" = none → a.get? "publish_date" = none →
      ∀ (t c sd : String),
        reactText (a.get? "title") = some t →
        reactText (a.get? "category") = some c →
        reactText (a.get? "source_domain") = some sd →
        (∀ xs, a.get? "authors" = some (.arr xs) →
          renderArticleCardNS a = some
            { title := t, image := none, summary := "No summary available", category := c,
              published := "Date not available",
              authorsLine := if 0 < xs.length then some (jsJoinWith ", " xs) else none,
              sourceDomain := sd, linkHref := jsAttr (a.get? "url") } ∧
          renderArticleCardNA a = some
            { title := t, image := none, summary := "No summary available", category := c,
              published := "Date not available",
              authorsLine := if 0 < xs.length then some (jsJoinWith ", " xs) else none,
              sourceDomain := sd, linkHref := jsAttr (a.get? "url") }) ∧
        (a.get? "authors" = none →
          renderArticleCardNS a = none ∧
          renderArticleCardNA a = some
            { title := t, image := none, summary := "No summary available", category := c,
              published := "Date not available", authorsLine := none,
              sourceDomain := sd, linkHref := jsAttr (a.get? "url") }) := by
  intro a hsum himg hdate t c sd ht hc hsd
  constructor
  · intro xs hauth
    constructor
    · by_cases hxs : 0 < xs.length <;>
        simp [renderArticleCardNS, renderArticleCardWith, ht, hc, hsd, hauth, hsum, himg,
              hdate, jsOrText, imageSection, formatDateJS, authorsSection, hxs]
    · by_cases hxs : 0 < xs.length <;>
        simp [renderArticleCardNA, renderArticleCardWith, ht, hc, hsd, hauth, hsum, himg,
              hdate, jsOrText, imageSection, formatDateJS, authorsSectionNA, hxs]
  · intro hauth
    constructor
    · simp [renderArticleCardNS, renderArticleCardWith, hauth, authorsSection]
    · simp [renderArticleCardNA, renderArticleCardWith, ht, hc, hsd, hauth, hsum, himg,
            hdate, jsOrText, imageSection, formatDateJS, authorsSectionNA]

/-- Concrete instantiation of C3 (amended): with `authors` present the
searcher card renders placeholders, and with `authors` absent the aggregator
card still renders while the searcher card fails. -/
theorem c3_amended_optional_fields_default_but_searcher_needs_authors_witness :
    (renderArticleCardNS (.obj [("title", .str "T"), ("category", .str "News"),
        ("source_domain", .str "cnn.com"), ("url", .str "https://cnn.com/a"),
        ("authors", .arr [.str "A"])]) = some
      { title := "T", image := none, summary := "No summary available", category := "News",
        published := "Date not available", authorsLine := some "A",
        sourceDomain := "cnn.com", linkHref := some "https://cnn.com/a" }) ∧
    (renderArticleCardNS (.obj [("title", .str "T"), ("category", .str "News"),
        ("source_domain", .str "cnn.com"), ("url", .str "https://cnn.com/a")]) = none ∧
     renderArticleCardNA (.obj [("title", .str "T"), ("category", .str "News"),
        ("source_domain", .str "cnn.com"), ("url", .str "https://cnn.com/a")]) = some
      { title := "T", image := none, summary := "No summary available", category := "News",
        published := "Date not available", authorsLine := none,
        sourceDomain := "cnn.com", linkHref := some "https://cnn.com/a" }) := by
  constructor
  · exact ((c3_amended_optional_fields_default_but_searcher_needs_authors
      (.obj [("title", .str "T"), ("category", .str "News"),
        ("source_domain", .str "cnn.com"), ("url", .str "https://cnn.com/a"),
        ("authors", .arr [.str "A"])]) rfl rfl rfl "T" "News" "cnn.com"
      rfl rfl rfl).1 [.str "A"] rfl).1
  · exact (c3_amended_optional_fields_default_but_searcher_needs_authors
      (.obj [("title", .str "T"), ("category", .str "News"),
        ("source_domain", .str "cnn.com"), ("url", .str "https://cnn.com/a")])
      rfl rfl rfl "T" "News" "cnn.com" rfl rfl rfl).2 rfl

/- ### Claim C4 -/

/-- Claim C4 counterexample: on a network-unreachable failure the
fetch-based NewsSearcher surfaces the raw rejection text ("Failed to
fetch"), which is not the fixed no-response message the HelloWorld page
uses — the message is neither fixed nor shared across components. -/
theorem c4_counterexample_fetch_page_shows_raw_exception_text :
    (nsSettle (nsSubmitStart nsInit) (.networkError "Failed to fetch")).error =
      some (.str "Failed to fetch") ∧
    ("Failed to fetch" ≠
      "No response from server. Please check if the backend is running.") := by
  exact ⟨rfl, by decide⟩

/-- Claim C4 (amended): only the axios-based HelloWorld page maps a
network-unreachable failure to the fixed no-response message; the three
fetch-based pages store the rejection's own message (falling back to a
page-specific generic text only when that message is empty). -/
theorem c4_amended_only_helloworld_has_fixed_no_response_message :
    (∀ (s : HWState), (hwSettle s .noResponse).error =
      some (.str "No response from server. Please check if the backend is running.")) ∧
    (∀ (s : NSState) (m : String), (nsSettle s (.networkError m)).error =
      some (.str (jsOr m "Failed to search articles. Please try again."))) ∧
    (∀ (s : SGState) (m now : String), (sgSettle s (.networkError m) now).error =
      some (.str (jsOr m "Failed to generate sources. Please try again."))) ∧
    (∀ (s : NAState) (m : String), (naSettle s (.networkError m)).error =
      some (.str (jsOr m "Failed to fetch data"))) := by
  exact ⟨fun s => rfl, fun s m => rfl, fun s m now => rfl, fun s m => rfl⟩

/- ### Claim C5 -/

/-- Claim C5: a submission whose required field is empty is blocked before
dispatch with a validation signal and no HTTP request: the NewsSearcher's
`url`/`query` and the aggregator's `topic` carry the HTML `required`
attribute (browser constraint validation blocks and shows its bubble), and
the HelloWorld handler returns a validation error before dispatch for a
blank question. -/
theorem c5_empty_required_field_blocked_before_dispatch :
    (∀ f : NSForm, f.url = "" ∨ f.query = "" → nsSubmitPipeline f = .blockedByBrowser) ∧
    (∀ f : NAForm, f.topic = "" → naSubmitPipeline f = .blockedByBrowser) ∧
    (∀ q : String, q = "" → hwSubmitPipeline q = .blockedByHandler "Please enter a question") := by
  refine ⟨fun f h => ?_, fun f h => ?_, fun q h => ?_⟩
  · unfold nsSubmitPipeline; exact if_pos h
  · unfold naSubmitPipeline; exact if_pos h
  · subst h; rfl

/-- Concrete instantiation of C5: each page's submission with the required
field empty is blocked. -/
theorem c5_empty_required_field_blocked_before_dispatch_witness :
    nsSubmitPipeline (NSForm.mk "" "" "combined") = .blockedByBrowser ∧
    naSubmitPipeline (NAForm.mk "en" "") = .blockedByBrowser ∧
    hwSubmitPipeline "" = .blockedByHandler "Please enter a question" :=
  ⟨c5_empty_required_field_blocked_before_dispatch.1 _ (Or.inl rfl),
   c5_empty_required_field_blocked_before_dispatch.2.1 _ rfl,
   c5_empty_required_field_blocked_before_dispatch.2.2 _ rfl⟩

/- ### Claim C6 -/

theorem jsURLArg_str (u : String) : jsURLArg (some (Json.str u)) = u := by
  simp [jsURLArg, Json.jsToString]

/-- The footer produced by `sourceFooter` is the fallback paragraph exactly
when the url fails validation, and otherwise an anchor to the (stringified)
url value. -/
theorem sourceFooter_spec (urlv : Option Json) :
    (isValidUrl urlv = false →
      sourceFooter urlv = some (.fallbackText "Invalid or missing URL")) ∧
    (isValidUrl urlv = true → ∀ f, sourceFooter urlv = some f →
      ∃ d, f = .link d (jsURLArg urlv)) := by
  constructor
  · intro h; simp [sourceFooter, h]
  · intro h f hf
    simp only [sourceFooter, h, if_true] at hf
    match urlv, hf with
    | some (Json.str u), hf =>
      refine ⟨formatUrl u, ?_⟩
      simp only [Option.some.injEq] at hf
      rw [← hf, jsURLArg_str]
    | some Json.null, hf => exact absurd h (by decide)
    | some (Json.bool b), hf =>
      obtain ⟨d, hd, hmap⟩ := Option.map_eq_some'.mp hf
      exact ⟨d, by rw [← hmap]; rfl⟩
    | some (Json.num n), hf =>
      obtain ⟨d, hd, hmap⟩ := Option.map_eq_some'.mp hf
      exact ⟨d, by rw [← hmap]; rfl⟩
    | some (Json.arr xs), hf =>
      obtain ⟨d, hd, hmap⟩ := Option.map_eq_some'.mp hf
      exact ⟨d, by rw [← hmap]; rfl⟩
    | some (Json.obj fs), hf =>
      obtain ⟨d, hd, hmap⟩ := Option.map_eq_some'.mp hf
      exact ⟨d, by rw [← hmap]; rfl⟩
    | none, hf => exact absurd h (by decide)

/-- Claim C6: every rendered Source card shows the "Invalid or missing URL"
fallback (and no anchor) exactly when the record's url fails URL parsing,
and carries an anchor whose href is the url value when parsing succeeds. -/
theorem c6_source_card_invalid_url_fallback_valid_url_anchor :
    ∀ (s : Json) (card : SourceCardView), renderSourceCard s = some card →
      (isValidUrl (s.get? "url") = false →
        card.footer = .fallbackText "Invalid or missing URL") ∧
      (isValidUrl (s.get? "url") = true →
        ∃ d, card.footer = .link d (jsURLArg (s.get? "url"))) := by
  intro s card hcard
  unfold renderSourceCard at hcard
  split at hcard
  · next name desc footer hn hd hf =>
    simp only [Option.some.injEq] at hcard
    constructor
    · intro h
      rw [(sourceFooter_spec (s.get? "url")).1 h] at hf
      rw [← hcard]
      simp only [Option.some.injEq] at hf
      exact hf.symm
    · intro h
      obtain ⟨d, hdl⟩ := (sourceFooter_spec (s.get? "url")).2 h footer hf
      exact ⟨d, by rw [← hcard, hdl]⟩
  · exact absurd hcard (by simp)

/-- Concrete instantiation of C6: a source with a parseable url gets an
anchor; one with an unparseable url gets the fallback and no anchor. -/
theorem c6_source_card_invalid_url_fallback_valid_url_anchor_witness :
    ((renderSourceCard (.obj [("name", .str "CNN"), ("url", .str "https://cnn.com")])).elim
      False (fun card => ∃ d, card.footer = .link d "https://cnn.com")) ∧
    ((renderSourceCard (.obj [("name", .str "X"), ("url", .str "not a url")])).elim
      False (fun card => card.footer = .fallbackText "Invalid or missing URL")) := by
  constructor
  · exact (c6_source_card_invalid_url_fallback_valid_url_anchor
      (.obj [("name", .str "CNN"), ("url", .str "https://cnn.com")])
      { name := "CNN", description := "No description available",
        footer := .link "cnn.com" "https://cnn.com" } (by rfl)).2 (by rfl)
  · exact (c6_source_card_invalid_url_fallback_valid_url_anchor
      (.obj [("name", .str "X"), ("url", .str "not a url")])
      { name := "X", description := "No description available",
        footer := .fallbackText "Invalid or missing URL" } (by rfl)).1 (by rfl)

/- ### Claim C7 -/

/-- Claim C7 counterexample: in the HelloWorld page a reachable view state
holds a truthy success payload and a non-null error simultaneously — submit
"hi", receive an answer, change the question to a blank " ", submit again:
the pre-dispatch validation error is set while the previous answer is kept. -/
theorem c7_counterexample_helloworld_payload_and_error_coexist :
    HWReachable (hwSubmit (hwInputChange
        (hwSettle (hwSubmit (hwInputChange hwInit "hi"))
          (.success (.obj [("answer", .str "Hello")]))) " ")) ∧
    (hwSubmit (hwInputChange
        (hwSettle (hwSubmit (hwInputChange hwInit "hi"))
          (.success (.obj [("answer", .str "Hello")]))) " ")).answer.jsTruthy = true ∧
    (hwSubmit (hwInputChange
        (hwSettle (hwSubmit (hwInputChange hwInit "hi"))
          (.success (.obj [("answer", .str "Hello")]))) " ")).error =
      some (.str "Please enter a question") := by
  refine ⟨?_, by rfl, by rfl⟩
  have h1 : HWReachable (hwInputChange hwInit "hi") :=
    .step .init (.input hwInit "hi" rfl)
  have h2 : HWReachable (hwSubmit (hwInputChange hwInit "hi")) :=
    .step h1 (.submit _ rfl (by decide))
  have h3 : HWReachable (hwSettle (hwSubmit (hwInputChange hwInit "hi"))
      (.success (.obj [("answer", .str "Hello")]))) :=
    .step h2 (.settle _ _ (by rfl))
  have h4 : HWReachable (hwInputChange (hwSettle (hwSubmit (hwInputChange hwInit "hi"))
      (.success (.obj [("answer", .str "Hello")]))) " ") :=
    .step h3 (.input _ " " (by rfl))
  exact .step h4 (.submit _ (by rfl) (by decide))

/-- Claim C7 (amended): in every reachable state of the NewsSearcher and
SourcesGenerator pages, loading, non-null payload and non-null error are
pairwise mutually exclusive; in the HelloWorld page loading still excludes
both, but a pre-dispatch validation error can coexist with a retained
success payload. -/
theorem c7_amended_mutual_exclusion_except_hw_validation_error :
    (∀ s : NSState, NSReachable s → nsMutex s) ∧
    (∀ s : SGState, SGReachable s → sgMutex s) ∧
    (∀ s : HWState, HWReachable s →
      ¬(s.isLoading = true ∧ s.answer.jsTruthy = true) ∧
      ¬(s.isLoading = true ∧ s.error.isSome = true)) := by
  refine ⟨fun s hs => ?_, fun s hs => ?_, fun s hs => ?_⟩
  · obtain ⟨i1, i2, i3⟩ := nsInv_reachable hs
    refine ⟨fun hc => ?_, fun hc => ?_, i3⟩
    · obtain ⟨hL, hA⟩ := hc; rw [(i2 hL).1] at hA; exact absurd hA (by decide)
    · obtain ⟨hL, hE⟩ := hc; rw [(i2 hL).2] at hE; exact absurd hE (by decide)
  · obtain ⟨i1, i2, i3⟩ := sgInv_reachable hs
    refine ⟨fun hc => ?_, fun hc => ?_, i3⟩
    · obtain ⟨hL, hA⟩ := hc; rw [(i2 hL).1] at hA; exact absurd hA (by decide)
    · obtain ⟨hL, hE⟩ := hc; rw [(i2 hL).2] at hE; exact absurd hE (by decide)
  · obtain ⟨i1, i2⟩ := hwInv_reachable hs
    refine ⟨fun hc => ?_, fun hc => ?_⟩
    · obtain ⟨hL, hA⟩ := hc; rw [(i2 hL).1] at hA; exact absurd hA (by decide)
    · obtain ⟨hL, hE⟩ := hc; rw [(i2 hL).2] at hE; exact absurd hE (by decide)

/-- Concrete instantiation of C7 (amended) at the initial states. -/
theorem c7_amended_mutual_exclusion_except_hw_validation_error_witness :
    nsMutex nsInit ∧ sgMutex sgInit ∧
    (¬(hwInit.isLoading = true ∧ hwInit.answer.jsTruthy = true) ∧
     ¬(hwInit.isLoading = true ∧ hwInit.error.isSome = true)) :=
  ⟨c7_amended_mutual_exclusion_except_hw_validation_error.1 nsInit .init,
   c7_amended_mutual_exclusion_except_hw_validation_error.2.1 sgInit .init,
   c7_amended_mutual_exclusion_except_hw_validation_error.2.2 hwInit .init⟩

/- ### Claim C8 -/

/-- Claim C8: two form states that agree on the topic but differ in the
language produce identical outbound requests (URL, method and body) for the
NewsAggregator and the SourcesGenerator: the language value never flows into
the request. -/
theorem c8_language_field_never_flows_into_request :
    (∀ f g : NAForm, f.topic = g.topic → naRequest f = naRequest g) ∧
    (∀ f g : SGForm, f.topic = g.topic → sgRequest f = sgRequest g) := by
  constructor
  · intro f g h; simp [naRequest, h]
  · intro f g h; simp [sgRequest, h]

/-- Concrete instantiation of C8: switching the language leaves both
requests unchanged. -/
theorem c8_language_field_never_flows_into_request_witness :
    naRequest (NAForm.mk "en" "ai news") = naRequest (NAForm.mk "fr" "ai news") ∧
    sgRequest (SGForm.mk "en" "ai news") = sgRequest (SGForm.mk "kn" "ai news") :=
  ⟨c8_language_field_never_flows_into_request.1 _ _ rfl,
   c8_language_field_never_flows_into_request.2 _ _ rfl⟩

/- ### Claims C9 and C10: shared helper -/

/-- A 200 response whose body carries `answer.sources` as a nonempty array
settles the SourcesGenerator into the success record: the stored topic is
`formData.topic || "General News"`, `created_at` is the timestamp and the
stored sources are the response's list. -/
theorem sgSettle_success (s : SGState) (status : Nat) (body a : Json) (xs : List Json)
    (now : String) (ha : body.get? "answer" = some a)
    (hsrc : a.get? "sources" = some (.arr xs)) (hne : xs ≠ []) :
    sgSettle s (.response true status body) now =
      { s with sourcesData := some (SGData.mk (jsOr s.formData.topic "General News") now xs),
               isLoading := false, pendingRequest := false } := by
  have haobj : a.jsTruthy = true := by
    cases a <;> first | rfl | simp [Json.get?] at hsrc
  have hlen : ¬ xs.length = 0 := by simpa using hne
  have harr : (Json.arr xs).jsTruthy = true := rfl
  simp [sgSettle, ha, hsrc, optTruthy, haobj, harr, hlen]

/- ### Claim C9 -/

/-- Claim C9: for every well-formed 200 payload carrying a list, the stored
payload is the response body and the rendered grid has exactly one card per
list entry, in the same order (index i renders entry i), on the
NewsSearcher, the SourcesGenerator and the NewsAggregator. -/
theorem c9_one_card_per_entry_preserving_order :
    (∀ (s : NSState) (status : Nat) (body : Json) (xs : List Json),
      body.get? "articles" = some (.arr xs) →
      (nsSettle (nsSubmitStart s) (.response true status body)).articles = some body ∧
      (nsRenderedCards body).length = xs.length ∧
      ∀ i : Nat, (nsRenderedCards body).get? i = (xs.get? i).map renderArticleCardNS) ∧
    (∀ (s : SGState) (status : Nat) (body a : Json) (xs : List Json) (now : String),
      body.get? "answer" = some a → a.get? "sources" = some (.arr xs) → xs ≠ [] →
      ∃ d, (sgSettle (sgSubmitStart s) (.response true status body) now).sourcesData = some d ∧
        d.sources = xs ∧ (sgRenderedCards d).length = xs.length ∧
        ∀ i : Nat, (sgRenderedCards d).get? i = (xs.get? i).map renderSourceCard) ∧
    (∀ (s : NAState) (status : Nat) (body : Json) (xs ys : List Json),
      body.get? "articles" = some (.arr xs) → body.get? "sources" = some (.arr ys) →
      (naSettle (naSubmitStart s) (.response true status body)).data = some body ∧
      (naRenderedArticleCards body).length = xs.length ∧
      (∀ i : Nat, (naRenderedArticleCards body).get? i = (xs.get? i).map renderArticleCardNA) ∧
      (naRenderedSourceCards body).length = ys.length ∧
      ∀ i : Nat, (naRenderedSourceCards body).get? i = (ys.get? i).map renderSourceCard) := by
  refine ⟨fun s status body xs h => ?_, fun s status body a xs now ha hsrc hne => ?_,
          fun s status body xs ys hx hy => ?_⟩
  · refine ⟨by simp [nsSettle, h], ?_, fun i => ?_⟩
    · simp [nsRenderedCards, h]
    · simp [nsRenderedCards, h, List.getElem?_map]
  · refine ⟨SGData.mk (jsOr s.formData.topic "General News") now xs, ?_, rfl, ?_, fun i => ?_⟩
    · rw [sgSettle_success (sgSubmitStart s) status body a xs now ha hsrc hne]; rfl
    · simp [sgRenderedCards]
    · simp [sgRenderedCards, List.getElem?_map]
  · refine ⟨by simp [naSettle], ?_, fun i => ?_, ?_, fun i => ?_⟩
    · simp [naRenderedArticleCards, hx]
    · simp [naRenderedArticleCards, hx, List.getElem?_map]
    · simp [naRenderedSourceCards, hy]
    · simp [naRenderedSourceCards, hy, List.getElem?_map]

/-- Concrete instantiation of C9: two-element payloads render two cards in
order on each page (index 1 shown explicitly). -/
theorem c9_one_card_per_entry_preserving_order_witness :
    ((nsSettle (nsSubmitStart nsInit) (.response true 200
        (.obj [("articles", .arr [.obj [("title", .str "a")], .obj [("title", .str "b")]]),
               ("count", .num 2)]))).articles = some
        (.obj [("articles", .arr [.obj [("title", .str "a")], .obj [("title", .str "b")]]),
               ("count", .num 2)]) ∧
     (nsRenderedCards
        (.obj [("articles", .arr [.obj [("title", .str "a")], .obj [("title", .str "b")]]),
               ("count", .num 2)])).length = 2 ∧
     (nsRenderedCards
        (.obj [("articles", .arr [.obj [("title", .str "a")], .obj [("title", .str "b")]]),
               ("count", .num 2)])).get? 1 =
       some (renderArticleCardNS (.obj [("title", .str "b")]))) ∧
    (∃ d, (sgSettle (sgSubmitStart sgInit) (.response true 200
        (.obj [("answer", .obj [("sources",
          .arr [.obj [("name", .str "s1")], .obj [("name", .str "s2")]])])])) "t0").sourcesData =
          some d ∧
      d.sources = [.obj [("name", .str "s1")], .obj [("name", .str "s2")]] ∧
      (sgRenderedCards d).length = 2 ∧
      (sgRenderedCards d).get? 1 = some (renderSourceCard (.obj [("name", .str "s2")]))) := by
  constructor
  · obtain ⟨h1, h2, h3⟩ := c9_one_card_per_entry_preserving_order.1 nsInit 200
      (.obj [("articles", .arr [.obj [("title", .str "a")], .obj [("title", .str "b")]]),
             ("count", .num 2)])
      [.obj [("title", .str "a")], .obj [("title", .str "b")]] rfl
    exact ⟨h1, h2, h3 1⟩
  · obtain ⟨d, h1, h2, h3, h4⟩ := c9_one_card_per_entry_preserving_order.2.1 sgInit 200
      (.obj [("answer", .obj [("sources",
        .arr [.obj [("name", .str "s1")], .obj [("name", .str "s2")]])])])
      (.obj [("sources", .arr [.obj [("name", .str "s1")], .obj [("name", .str "s2")]])])
      [.obj [("name", .str "s1")], .obj [("name", .str "s2")]] "t0" rfl rfl (by simp)
    refine ⟨d, h1, h2, h3, ?_⟩
    have := h4 1
    simpa using this

/- ### Claim C10 -/

/-- Claim C10: when the SourcesGenerator topic is empty at submission time,
the POST body is the literal JSON for the default question (never the empty
string as question), and a successful settle stores topic "General News". -/
theorem c10_empty_topic_default_question_and_general_news :
    ∀ (s : SGState), s.formData.topic = "" →
      (sgRequest s.formData = .post "http://localhost:8002/sources" "application/json"
        "\x7b\"question\":\"Show me general news sources\"\x7d" ∧
       "\x7b\"question\":\"Show me general news sources\"\x7d" ≠
         "\x7b\"question\":\"\"\x7d") ∧
      (∀ (status : Nat) (body a : Json) (xs : List Json) (now : String),
        body.get? "answer" = some a → a.get? "sources" = some (.arr xs) → xs ≠ [] →
        (sgSettle (sgSubmitStart s) (.response true status body) now).sourcesData =
          some (SGData.mk "General News" now xs)) := by
  intro s h
  refine ⟨⟨?_, by decide⟩, fun status body a xs now ha hsrc hne => ?_⟩
  · unfold sgRequest
    rw [h]
    rfl
  · rw [sgSettle_success (sgSubmitStart s) status body a xs now ha hsrc hne]
    have : (sgSubmitStart s).formData.topic = "" := h
    rw [show jsOr (sgSubmitStart s).formData.topic "General News" = "General News" by
      rw [this]; rfl]

/-- Concrete instantiation of C10 at an empty-topic form. -/
theorem c10_empty_topic_default_question_and_general_news_witness :
    (sgRequest sgInit.formData = .post "http://localhost:8002/sources" "application/json"
      "\x7b\"question\":\"Show me general news sources\"\x7d" ∧
     "\x7b\"question\":\"Show me general news sources\"\x7d" ≠
       "\x7b\"question\":\"\"\x7d") ∧
    (sgSettle (sgSubmitStart sgInit) (.response true 200
      (.obj [("answer", .obj [("sources", .arr [.obj [("name", .str "s1")]])])])) "t0").sourcesData =
      some (SGData.mk "General News" "t0" [.obj [("name", .str "s1")]]) := by
  obtain ⟨h1, h2⟩ := c10_empty_topic_default_question_and_general_news sgInit rfl
  exact ⟨h1, h2 200 _ (.obj [("sources", .arr [.obj [("name", .str "s1")]])])
    [.obj [("name", .str "s1")]] "t0" rfl rfl (by simp)⟩

end PandanticNews
